import Mathlib

/-!
# Verification of the Kalshi API client (`base/clients/clients.py`, `base/NBA/nba_analysis.py`)

Shallow embedding of the client's pure logic in Lean 4.  Python dicts with
optional (`None`-able) values are modelled as ordered association lists over an
inductive `Value` type; `None`-removal (`{k: v for k, v in d.items() if v is not None}`)
is `removeNones`.  Exceptions are modelled with `Except`; HTTP responses,
transports and signing primitives are explicit function parameters.  Times are
integers (microseconds or milliseconds, as each definition notes).
-/

namespace Forecasting

/-- A Python value that can appear in a request dict: a string, an int, a bool,
or `None`. -/
inductive Value where
  | str (s : String)
  | int (n : Int)
  | bool (b : Bool)
  | none
deriving DecidableEq, Repr

/-- An ordered Python dict (insertion order preserved, as in CPython). -/
abbrev Dict := List (String × Value)

/-- Truth test: `true` unless the value is Python `None`. -/
def isPresent : Value → Bool
  | Value.none => false
  | _ => true

/-- Embedding of `{k: v for k, v in d.items() if v is not None}` — the None-dropping pattern
used throughout `clients.py`. -/
def removeNones (d : Dict) : Dict :=
  d.filter (fun kv => isPresent kv.2)

/-- An `Optional[str]` argument placed into a dict literal. -/
def vStr : Option String → Value
  | Option.none => Value.none
  | some s => Value.str s

/-- An `Optional[int]` argument placed into a dict literal. -/
def vInt : Option Int → Value
  | Option.none => Value.none
  | some n => Value.int n

/-- An `Optional[bool]` argument placed into a dict literal. -/
def vBool : Option Bool → Value
  | Option.none => Value.none
  | some b => Value.bool b

/-- Python `self.base` in `KalshiHttpClient.__init__`. -/
def base_path : String := "/trade-api/v2"

/-- Python `self.portfolio_url = self.base + "/portfolio"`. -/
def portfolio_url : String := base_path ++ "/portfolio"

/-- Python `self.markets_url = self.base + "/markets"`. -/
def markets_url : String := base_path ++ "/markets"

/- ===================== C1: `create_order` ===================== -/

/-- The externally visible action a client method takes: either it raises
before any I/O, or it issues an HTTP POST with a body. -/
inductive ClientCall where
  | post (path : String) (body : Dict)
  | validationError (msg : String)
deriving DecidableEq, Repr

/-- Embedding of `KalshiHttpClient.create_order` (clients.py lines 302–357):
builds `order_data` in the literal's key order, removes `None` values, and
unconditionally POSTs to `portfolio_url + '/orders'`.  The source contains no
check on `yes_price`/`no_price` (unlike `amend_order` and `decrease_order`,
which both raise `ValueError` on their analogous constraints). -/
def create_order (action client_order_id : String) (count : Int)
    (side ticker type : String)
    (buy_max_cost expiration_ts no_price : Option Int) (post_only : Option Bool)
    (sell_position_floor yes_price : Option Int) : ClientCall :=
  let order_data : Dict := [
    ("action", Value.str action),
    ("client_order_id", Value.str client_order_id),
    ("count", Value.int count),
    ("side", Value.str side),
    ("ticker", Value.str ticker),
    ("type", Value.str type),
    ("buy_max_cost", vInt buy_max_cost),
    ("expiration_ts", vInt expiration_ts),
    ("no_price", vInt no_price),
    ("post_only", vBool post_only),
    ("sell_position_floor", vInt sell_position_floor),
    ("yes_price", vInt yes_price)]
  let order_data := removeNones order_data
  ClientCall.post (portfolio_url ++ "/orders") order_data

/-- Embedding of `KalshiHttpClient.amend_order` (lines 363–410), which *does*
enforce the XOR constraint — evidence that the missing check in `create_order`
is a slip. -/
def amend_order (order_id action client_order_id : String) (count : Int)
    (side ticker updated_client_order_id : String)
    (no_price yes_price : Option Int) : ClientCall :=
  if (yes_price = Option.none ∧ no_price = Option.none) ∨
      (yes_price ≠ Option.none ∧ no_price ≠ Option.none) then
    ClientCall.validationError "Exactly one of yes_price or no_price must be provided."
  else
    let amend_data : Dict := [
      ("action", Value.str action),
      ("client_order_id", Value.str client_order_id),
      ("count", Value.int count),
      ("side", Value.str side),
      ("ticker", Value.str ticker),
      ("updated_client_order_id", Value.str updated_client_order_id),
      ("no_price", vInt no_price),
      ("yes_price", vInt yes_price)]
    ClientCall.post (portfolio_url ++ "/orders/" ++ order_id ++ "/amend")
      (removeNones amend_data)

/- ===================== C2: pagination ===================== -/

/-- The decoded JSON body of a `get_markets` response: a possibly missing
`markets` list and a possibly missing pagination `cursor`.  Items are abstract
(`α`). -/
structure MarketsResponse (α : Type) where
  markets : Option (List α)
  cursor : Option String
deriving DecidableEq, Repr

/-- Embedding of `get_nba_game_markets` (nba_analysis.py lines 57–76).
`fetch c` stands for one `client.get_markets(series_ticker="KXNBAGAME",
status="settled", limit=limit)` round trip with pagination cursor `c`; the
source never passes a cursor, so the call is `fetch Option.none`, exactly once.
`if 'markets' not in response: return []` is the `Option.none` branch. -/
def get_nba_game_markets {α : Type} (fetch : Option String → MarketsResponse α) :
    List α :=
  let response := fetch Option.none
  match response.markets with
  | Option.none => []
  | some all_markets => all_markets

/-- The pagination helper as the spec describes it (`PaginatedResource`):
repeatedly call the single-page fetch, threading the returned cursor into the
next call, accumulating items, stopping on the first cursor-absent response.
`fuel` bounds the recursion; it plays the role of the caller's page cap. -/
def paginatedResource {α : Type} (fetch : Option String → MarketsResponse α) :
    Nat → Option String → List α
  | 0, _ => []
  | fuel + 1, cursor =>
    let page := fetch cursor
    let items := page.markets.getD []
    match page.cursor with
    | Option.none => items
    | some c => items ++ paginatedResource fetch fuel (some c)

/-- A concrete paged source: 2 items split across 2 pages of size 1, the first
page carrying cursor `"c1"`, the second carrying no cursor. -/
def twoPageSource : Option String → MarketsResponse Nat :=
  fun cursor =>
    match cursor with
    | Option.none => { markets := some [0], cursor := some "c1" }
    | some _ => { markets := some [1], cursor := Option.none }

/- ===================== C7: authentication headers ===================== -/

/-- Embedding of `path.split('?')[0]`: the prefix of the path before the first `'?'`
(the whole path when there is no query string). -/
def stripQuery (path : String) : String :=
  String.mk (path.data.takeWhile (fun c => c ≠ '?'))

/-- The headers dict built by `KalshiBaseClient.request_headers`. -/
structure Headers where
  contentType : String
  accessKey : String
  accessSignature : String
  accessTimestamp : String
deriving DecidableEq, Repr

/-- Embedding of `KalshiBaseClient.request_headers` (clients.py lines 50–67).
`now_ms` is the `int(time.time() * 1000)` reading; `sgn` is `self.sign_pss_text`
on its success path (the signing wrapper itself is `sign_pss_text` below). -/
def request_headers (key_id : String) (sgn : String → String) (now_ms : Int)
    (method path : String) : Headers :=
  let timestamp_str := toString now_ms
  let msg_string := timestamp_str ++ method ++ stripQuery path
  { contentType := "application/json",
    accessKey := key_id,
    accessSignature := sgn msg_string,
    accessTimestamp := timestamp_str }

/-- Python `self.url_suffix` of `KalshiWebSocketClient`. -/
def url_suffix : String := "/trade-api/ws/v2"

/-- The headers `KalshiWebSocketClient.connect` attaches to the streaming
handshake: `self.request_headers("GET", self.url_suffix)` (lines 1356–1363). -/
def ws_connect_headers (key_id : String) (sgn : String → String) (now_ms : Int) :
    Headers :=
  request_headers key_id sgn now_ms "GET" url_suffix

/- ===================== C3: HTTP response classification ===================== -/

/-- A `requests.Response`: final status code, the decoded JSON body (`.json()`),
and the raw text used in error reports. -/
structure Response (β : Type) where
  status_code : Nat
  json : β
  raw : String

/-- The `requests` `HTTPError` raised by `Response.raise_for_status`, carrying
the status code and raw body. -/
structure HTTPError where
  status_code : Nat
  raw : String
deriving DecidableEq, Repr

/-- Python `status_code in range(200, 299)` — note this is `200 ≤ s ≤ 298`. -/
def inRange200to299 (s : Nat) : Bool :=
  decide (200 ≤ s) && decide (s < 299)

/-- Behaviour of `requests.Response.raise_for_status`: raises exactly for client errors
(400–499) and server errors (500–599). -/
def raise_for_status_raises (s : Nat) : Bool :=
  (decide (400 ≤ s) && decide (s < 500)) || (decide (500 ≤ s) && decide (s < 600))

/-- Embedding of `KalshiHttpClient.raise_if_bad_response` (lines 118–121):
`true` iff the call raises. -/
def raise_if_bad_response (s : Nat) : Bool :=
  !(inRange200to299 s) && raise_for_status_raises s

/-- Observable events of one REST method call, in program order. -/
inductive Ev where
  | rateLimitAcquire
  | send (method url : String) (headers : Headers) (payload : Dict)

/-- Number of HTTP requests actually sent during a call. -/
def sendCount (tr : List Ev) : Nat :=
  (tr.filter (fun e =>
    match e with
    | Ev.send _ _ _ _ => true
    | _ => false)).length

/-- The per-call context of a `KalshiHttpClient` REST method: credentials and
signer, the clock reading for this call, the host, and the HTTP transport
(`requests.get`/`post`/`delete`), which maps method, url, headers and
params-or-body to the final `Response`. -/
structure Http (β : Type) where
  key_id : String
  signFn : String → String
  now_ms : Int
  host : String
  transport : String → String → Headers → Dict → Response β

/-- Embedding of `KalshiHttpClient.get` (lines 136–145): rate-limit, send one
GET with authenticated headers and the given params, raise on a bad status,
otherwise return the decoded body.  The first component is the event trace in
program order. -/
def Http.get {β : Type} (c : Http β) (path : String) (params : Dict) :
    List Ev × Except HTTPError β :=
  let headers := request_headers c.key_id c.signFn c.now_ms "GET" path
  let url := c.host ++ path
  let response := c.transport "GET" url headers params
  ([Ev.rateLimitAcquire, Ev.send "GET" url headers params],
   if raise_if_bad_response response.status_code then
     Except.error { status_code := response.status_code, raw := response.raw }
   else
     Except.ok response.json)

/-- Embedding of `KalshiHttpClient.post` (lines 125–134); the dict is the JSON
body. -/
def Http.post {β : Type} (c : Http β) (path : String) (body : Dict) :
    List Ev × Except HTTPError β :=
  let headers := request_headers c.key_id c.signFn c.now_ms "POST" path
  let url := c.host ++ path
  let response := c.transport "POST" url headers body
  ([Ev.rateLimitAcquire, Ev.send "POST" url headers body],
   if raise_if_bad_response response.status_code then
     Except.error { status_code := response.status_code, raw := response.raw }
   else
     Except.ok response.json)

/-- Embedding of `KalshiHttpClient.delete` (lines 147–156). -/
def Http.delete {β : Type} (c : Http β) (path : String) (params : Dict) :
    List Ev × Except HTTPError β :=
  let headers := request_headers c.key_id c.signFn c.now_ms "DELETE" path
  let url := c.host ++ path
  let response := c.transport "DELETE" url headers params
  ([Ev.rateLimitAcquire, Ev.send "DELETE" url headers params],
   if raise_if_bad_response response.status_code then
     Except.error { status_code := response.status_code, raw := response.raw }
   else
     Except.ok response.json)

/- ===================== C4: rate limiter, sequential ===================== -/

/-- Constant `THRESHOLD_IN_MILLISECONDS = 100` in `rate_limit`. -/
def THRESHOLD_IN_MILLISECONDS : Int := 100

/-- Constant `threshold_in_microseconds = 1000 * THRESHOLD_IN_MILLISECONDS`. -/
def threshold_in_microseconds : Int := 1000 * THRESHOLD_IN_MILLISECONDS

/-- The two `datetime.now()` readings one `rate_limit()` call makes (lines
108–116), in microseconds: `tNow` at `now = datetime.now()`, `tAfter` at
`self.last_api_call = datetime.now()`. -/
structure ClockStep where
  tNow : Int
  tAfter : Int
deriving DecidableEq, Repr

/-- The source's branch condition `now - self.last_api_call <
timedelta(microseconds=threshold_in_microseconds)`: when true, the call
executes `time.sleep(threshold_in_seconds)` (0.1 s = 100000 μs). -/
def rate_limit_sleeps (last_api_call : Int) (s : ClockStep) : Bool :=
  decide (s.tNow - last_api_call < threshold_in_microseconds)

/-- The state update `self.last_api_call = datetime.now()`, executed as the
last statement before `rate_limit` returns: the new recorded instant is the
second clock reading. -/
def rate_limit_update (s : ClockStep) : Int := s.tAfter

/-- Environment assumptions about one step, not code: the clock is monotone
(`last ≤ tNow`, `tNow ≤ tAfter`), and `time.sleep(0.1)` suspends for at least
100000 μs, so when the sleep branch is taken the second reading is at least
`tNow + threshold`. -/
def stepValid (last : Int) (s : ClockStep) : Bool :=
  decide (last ≤ s.tNow) &&
    (if rate_limit_sleeps last s then decide (s.tNow + threshold_in_microseconds ≤ s.tAfter)
     else decide (s.tNow ≤ s.tAfter))

/-- A whole back-to-back call sequence is valid when each step is valid with
respect to the `last_api_call` recorded by the previous one. -/
def chainValid : Int → List ClockStep → Bool
  | _, [] => true
  | last, s :: rest => stepValid last s && chainValid (rate_limit_update s) rest

/-- The successive values of `self.last_api_call`: the construction-time
reading, then each call's recorded instant. -/
def recordedInstants (init : Int) (steps : List ClockStep) : List Int :=
  init :: steps.map rate_limit_update

/-- Every two consecutive entries of the list are at least `d` apart. -/
def gapsAtLeast (d : Int) : List Int → Bool
  | [] => true
  | [_] => true
  | a :: b :: t => decide (a + d ≤ b) && gapsAtLeast d (b :: t)

/- ===================== C5: rate limiter under concurrency ===================== -/

namespace Race

/-- Where a thread is inside `rate_limit`: before the first `datetime.now()`;
blocked in `time.sleep`; past the (possibly skipped) sleep and about to run
`self.last_api_call = datetime.now()`; finished (the HTTP send follows). -/
inductive Phase where
  | start
  | sleeping
  | readyWrite
  | done
deriving DecidableEq, Repr

/-- One thread's state; `wake` is the earliest instant its sleep can end. -/
structure Thr where
  phase : Phase
  wake : Int
deriving DecidableEq, Repr

/-- Two threads of one process concurrently calling `rate_limit` on the same
client: global time, the shared `self.last_api_call`, both thread states, and
the instants at which completed calls proceed to their HTTP send. -/
structure Sys where
  time : Int
  last_api_call : Int
  tA : Thr
  tB : Thr
  sends : List Int
deriving DecidableEq, Repr

/-- Scheduler actions.  `rate_limit` has no lock, so between any two of a
thread's atomic statements the other thread may run.  `readNow i t`: thread `i`
executes `now = datetime.now()` (reading `t`) and the comparison against the
shared `last_api_call`, entering the sleep when the gap is under the threshold
(sleeping exactly the requested 100000 μs).  `wake i`: its `time.sleep`
returns.  `writeLast i t`: it executes `self.last_api_call = datetime.now()`
(reading `t`) and proceeds to send. -/
inductive Act where
  | readNow (first : Bool) (t : Int)
  | wake (first : Bool)
  | writeLast (first : Bool) (t : Int)
deriving DecidableEq, Repr

/-- The selected thread. -/
def getThr (s : Sys) (first : Bool) : Thr :=
  if first then s.tA else s.tB

/-- Replace the selected thread. -/
def setThr (s : Sys) (first : Bool) (t : Thr) : Sys :=
  if first then { s with tA := t } else { s with tB := t }

/-- One interleaving step; `Option.none` when the action is not enabled
(wrong phase or time going backwards). -/
def step (s : Sys) : Act → Option Sys
  | Act.readNow i t =>
    if (getThr s i).phase = Phase.start ∧ s.time ≤ t then
      if decide (t - s.last_api_call < threshold_in_microseconds) then
        some (setThr { s with time := t } i
          { phase := Phase.sleeping, wake := t + threshold_in_microseconds })
      else
        some (setThr { s with time := t } i { phase := Phase.readyWrite, wake := 0 })
    else Option.none
  | Act.wake i =>
    if (getThr s i).phase = Phase.sleeping then
      some (setThr { s with time := max s.time (getThr s i).wake } i
        { phase := Phase.readyWrite, wake := 0 })
    else Option.none
  | Act.writeLast i t =>
    if (getThr s i).phase = Phase.readyWrite ∧ s.time ≤ t then
      some (setThr { s with time := t, last_api_call := t, sends := s.sends ++ [t] } i
        { phase := Phase.done, wake := 0 })
    else Option.none

/-- Run a schedule to completion (`Option.none` if any action is not enabled). -/
def run (s : Sys) : List Act → Option Sys
  | [] => some s
  | a :: rest =>
    match step s a with
    | some s' => run s' rest
    | Option.none => Option.none

/-- Fresh client whose constructor recorded `last_api_call = 0`, with both
threads about to call `rate_limit`. -/
def init : Sys :=
  { time := 0, last_api_call := 0,
    tA := { phase := Phase.start, wake := 0 },
    tB := { phase := Phase.start, wake := 0 },
    sends := [] }

/-- The racy interleaving: both threads read the old `last_api_call = 0` and
pass the comparison before either writes, both sleep, then both complete
1 μs apart. -/
def racySchedule : List Act :=
  [Act.readNow true 1, Act.readNow false 2,
   Act.wake true, Act.writeLast true 100001,
   Act.wake false, Act.writeLast false 100002]

end Race

/- ===================== C6: WebSocket message IDs ===================== -/

/-- The mutable state of a `KalshiWebSocketClient` relevant to message
sequencing: `self.message_id`, initialised to 1 in `__init__`. -/
structure WS where
  message_id : Int
deriving DecidableEq, Repr

/-- Embedding of `KalshiWebSocketClient.__init__`: `self.message_id = 1`. -/
def WS.fresh : WS := { message_id := 1 }

/-- The wire payload of an outbound message: the subscribe/unsubscribe control
shape `{id, cmd, params: {channels}}`, or a custom dict (abstracted to a
string) into which `send_custom_message` writes the `id`. -/
inductive OutPayload where
  | control (cmd : String) (channels : List String)
  | custom (body : String)
deriving DecidableEq, Repr

/-- An outbound message: the allocated id and the payload. -/
structure OutMsg where
  id : Int
  payload : OutPayload
deriving DecidableEq, Repr

/-- Embedding of `subscribe_to_tickers` (lines 1370–1380): sends
`{id: self.message_id, cmd: "subscribe", channels: ["ticker"]}`, then
`self.message_id += 1`. -/
def subscribe_to_tickers (st : WS) : WS × OutMsg :=
  ({ message_id := st.message_id + 1 },
   { id := st.message_id, payload := OutPayload.control "subscribe" ["ticker"] })

/-- Embedding of `subscribe_to_specific_tickers` (lines 1382–1392). -/
def subscribe_to_specific_tickers (st : WS) (tickers : List String) : WS × OutMsg :=
  ({ message_id := st.message_id + 1 },
   { id := st.message_id,
     payload := OutPayload.control "subscribe" (tickers.map (fun t => "ticker:" ++ t)) })

/-- Embedding of `subscribe_to_orderbook` (lines 1394–1404). -/
def subscribe_to_orderbook (st : WS) (ticker : String) : WS × OutMsg :=
  ({ message_id := st.message_id + 1 },
   { id := st.message_id,
     payload := OutPayload.control "subscribe" ["orderbook_delta:" ++ ticker] })

/-- Embedding of `subscribe_to_trades` (lines 1406–1421): channel `trade:<T>` for a specific
market, `trade` otherwise. -/
def subscribe_to_trades (st : WS) (ticker : Option String) : WS × OutMsg :=
  let channel :=
    match ticker with
    | some t => "trade:" ++ t
    | Option.none => "trade"
  ({ message_id := st.message_id + 1 },
   { id := st.message_id, payload := OutPayload.control "subscribe" [channel] })

/-- Embedding of `unsubscribe_from_channel` (lines 1423–1433). -/
def unsubscribe_from_channel (st : WS) (channel : String) : WS × OutMsg :=
  ({ message_id := st.message_id + 1 },
   { id := st.message_id, payload := OutPayload.control "unsubscribe" [channel] })

/-- Embedding of `send_custom_message` (lines 1435–1439): writes `message["id"]`, sends,
increments. -/
def send_custom_message (st : WS) (message : String) : WS × OutMsg :=
  ({ message_id := st.message_id + 1 },
   { id := st.message_id, payload := OutPayload.custom message })

/-- One caller-issued outbound operation on the session. -/
inductive WsOp where
  | subTickers
  | subSpecific (tickers : List String)
  | subOrderbook (ticker : String)
  | subTrades (ticker : Option String)
  | unsub (channel : String)
  | custom (message : String)
deriving DecidableEq, Repr

/-- Dispatch an operation to the corresponding client method. -/
def applyOp (st : WS) : WsOp → WS × OutMsg
  | WsOp.subTickers => subscribe_to_tickers st
  | WsOp.subSpecific ts => subscribe_to_specific_tickers st ts
  | WsOp.subOrderbook t => subscribe_to_orderbook st t
  | WsOp.subTrades t => subscribe_to_trades st t
  | WsOp.unsub c => unsubscribe_from_channel st c
  | WsOp.custom m => send_custom_message st m

/-- Run a sequence of outbound operations, collecting the sent messages in
order. -/
def runOps (st : WS) : List WsOp → WS × List OutMsg
  | [] => (st, [])
  | op :: rest =>
    let (st', m) := applyOp st op
    let (st'', ms) := runOps st' rest
    (st'', m :: ms)

/- ===================== C8: query-parameter construction ===================== -/

/-- The `params` dict built by `get_markets` (lines 699–712), in the literal's
key order, after `None`-removal. -/
def get_markets_params (event_ticker series_ticker : Option String)
    (max_close_ts min_close_ts limit : Option Int)
    (cursor status : Option String) : Dict :=
  removeNones [
    ("event_ticker", vStr event_ticker),
    ("series_ticker", vStr series_ticker),
    ("max_close_ts", vInt max_close_ts),
    ("min_close_ts", vInt min_close_ts),
    ("limit", vInt limit),
    ("cursor", vStr cursor),
    ("status", vStr status)]

/-- Embedding of `KalshiHttpClient.get_markets`: a GET on `markets_url` with
the filtered params. -/
def get_markets {β : Type} (c : Http β) (event_ticker series_ticker : Option String)
    (max_close_ts min_close_ts limit : Option Int)
    (cursor status : Option String) : List Ev × Except HTTPError β :=
  c.get markets_url
    (get_markets_params event_ticker series_ticker max_close_ts min_close_ts limit
      cursor status)

/-- The `params` dict built by `get_positions` (lines 188–223), in the
literal's key order, after `None`-removal. -/
def get_positions_params (cursor : Option String) (limit : Option Int)
    (count_filter settlement_status ticker event_ticker : Option String) : Dict :=
  removeNones [
    ("cursor", vStr cursor),
    ("limit", vInt limit),
    ("count_filter", vStr count_filter),
    ("settlement_status", vStr settlement_status),
    ("ticker", vStr ticker),
    ("event_ticker", vStr event_ticker)]

/-- Embedding of `KalshiHttpClient.get_positions`: a GET on
`portfolio_url + '/positions'` with the filtered params. -/
def get_positions {β : Type} (c : Http β) (cursor : Option String)
    (limit : Option Int)
    (count_filter settlement_status ticker event_ticker : Option String) :
    List Ev × Except HTTPError β :=
  c.get (portfolio_url ++ "/positions")
    (get_positions_params cursor limit count_filter settlement_status ticker
      event_ticker)

/-- The spec's description of the same construction: "construct a mapping only
from present optional values" — an entry appears exactly when the argument was
supplied. -/
def optStr (k : String) : Option String → Dict
  | Option.none => []
  | some v => [(k, Value.str v)]

/-- As `optStr`, for int-valued filters. -/
def optInt (k : String) : Option Int → Dict
  | Option.none => []
  | some v => [(k, Value.int v)]

/-- Spec-side `get_markets` params: exactly the supplied subset, in order. -/
def suppliedMarketsParams (event_ticker series_ticker : Option String)
    (max_close_ts min_close_ts limit : Option Int)
    (cursor status : Option String) : Dict :=
  optStr "event_ticker" event_ticker ++ optStr "series_ticker" series_ticker ++
    optInt "max_close_ts" max_close_ts ++ optInt "min_close_ts" min_close_ts ++
    optInt "limit" limit ++ optStr "cursor" cursor ++ optStr "status" status

/-- Spec-side `get_positions` params: exactly the supplied subset, in order. -/
def suppliedPositionsParams (cursor : Option String) (limit : Option Int)
    (count_filter settlement_status ticker event_ticker : Option String) : Dict :=
  optStr "cursor" cursor ++ optInt "limit" limit ++
    optStr "count_filter" count_filter ++ optStr "settlement_status" settlement_status ++
    optStr "ticker" ticker ++ optStr "event_ticker" event_ticker

/- ===================== C9: signing ===================== -/

/-- How the cryptographic primitive `self.private_key.sign(...)` can fail, by
Python exception class: `cryptography.exceptions.InvalidSignature` (the only
class the source catches) versus any other exception, e.g. the `TypeError` an
unusable or wrong-type key object produces. -/
inductive PrimError where
  | invalidSignature
  | otherError (msg : String)
deriving DecidableEq, Repr

/-- The error surface of `sign_pss_text` as the caller sees it: the
`ValueError("RSA sign PSS failed")` the wrapper raises, or an exception that
propagated uncaught. -/
inductive PyError where
  | valueError (msg : String)
  | uncaught (msg : String)
deriving DecidableEq, Repr

/-- Embedding of `text.encode('utf-8')` as a byte list. -/
def utf8Bytes (s : String) : List Nat :=
  s.toUTF8.toList.map (fun b => b.toNat)

/-- The standard base64 alphabet. -/
def b64Char (n : Nat) : Char :=
  "ABCDEFGHIJKLMNOPQRSTUVWXYZabcdefghijklmnopqrstuvwxyz0123456789+/".data.getD n 'A'

/-- Embedding of `base64.b64encode` on a byte list, with `=` padding. -/
def b64encode : List Nat → String
  | [] => ""
  | [a] => String.mk [b64Char (a / 4), b64Char (a % 4 * 16)] ++ "=="
  | [a, b] => String.mk [b64Char (a / 4), b64Char (a % 4 * 16 + b / 16),
      b64Char (b % 16 * 4)] ++ "="
  | a :: b :: c :: rest =>
    String.mk [b64Char (a / 4), b64Char (a % 4 * 16 + b / 16),
      b64Char (b % 16 * 4 + c / 64), b64Char (c % 64)] ++ b64encode rest

/-- Embedding of `KalshiBaseClient.sign_pss_text` (lines 69–83): UTF-8 encode,
call the RSA-PSS primitive, base64 the signature; `except InvalidSignature`
re-raises `ValueError("RSA sign PSS failed")`, and — because that is the only
`except` clause — every other exception class propagates uncaught. -/
def sign_pss_text (primSign : List Nat → Except PrimError (List Nat))
    (text : String) : Except PyError String :=
  match primSign (utf8Bytes text) with
  | Except.ok signature => Except.ok (b64encode signature)
  | Except.error PrimError.invalidSignature =>
    Except.error (PyError.valueError "RSA sign PSS failed")
  | Except.error (PrimError.otherError m) => Except.error (PyError.uncaught m)

/- ===================== C10: `get_exposed_positions` ===================== -/

/-- One entry of a positions response's `market_positions` list:
`market_exposure` may be absent (`position.get("market_exposure", 0)`), and
`rest` stands opaquely for the record's other fields. -/
structure Position where
  market_exposure : Option Int
  rest : String
deriving DecidableEq, Repr

/-- The decoded body `get_positions` returns: `market_positions` and `cursor`
may each be absent (`portfolio_data.get(..., default)`). -/
structure PositionsResponse where
  market_positions : Option (List Position)
  cursor : Option String
deriving DecidableEq, Repr

/-- The dict `get_exposed_positions` returns. -/
structure ExposedPositions where
  cursor : String
  market_positions : List Position
deriving DecidableEq, Repr

/-- Embedding of `KalshiHttpClient.get_exposed_positions` (lines 447–472)
applied to the `get_positions` response body: keep the positions whose
`position.get("market_exposure", 0) != 0`, and default the cursor to `""`. -/
def get_exposed_positions (portfolio_data : PositionsResponse) : ExposedPositions :=
  let filtered_positions :=
    (portfolio_data.market_positions.getD []).filter
      (fun position => position.market_exposure.getD 0 != 0)
  { cursor := portfolio_data.cursor.getD "",
    market_positions := filtered_positions }

/-- The claim's description: the subsequence of entries whose
`market_exposure` is nonzero (absent counting as zero), in original order. -/
def nonzeroExposureSubseq : List Position → List Position
  | [] => []
  | p :: rest =>
    if p.market_exposure.getD 0 ≠ 0 then p :: nonzeroExposureSubseq rest
    else nonzeroExposureSubseq rest

/- ===================== concrete instances used by the theorems ===================== -/

/-- A paged source agreeing with `twoPageSource` on the first page but holding
different data behind the cursor. -/
def firstPageTwin : Option String → MarketsResponse Nat :=
  fun cursor =>
    match cursor with
    | Option.none => { markets := some [0], cursor := some "c1" }
    | some _ => { markets := some [7, 8, 9], cursor := some "c2" }

/-- A transport whose final response is a 301 with a decodable body and no
`Location` header (so `requests` treats it as final). -/
def resp301 : Response Nat := { status_code := 301, json := 0, raw := "moved" }

/-- A client wired to the 301 transport. -/
def client301 : Http Nat :=
  { key_id := "kid", signFn := fun m => m, now_ms := 0,
    host := "https://api.elections.kalshi.com",
    transport := fun _ _ _ _ => resp301 }

/-- A client whose transport answers HTTP 429 to everything. -/
def client429 : Http Nat :=
  { key_id := "kid", signFn := fun m => m, now_ms := 0,
    host := "https://api.elections.kalshi.com",
    transport := fun _ _ _ _ => { status_code := 429, json := 0, raw := "too many requests" } }

/-- A well-formed order body for the 429 scenario. -/
def order429Body : Dict :=
  [("action", Value.str "buy"), ("client_order_id", Value.str "oid-9"),
   ("count", Value.int 1), ("side", Value.str "yes"),
   ("ticker", Value.str "T"), ("type", Value.str "limit"),
   ("yes_price", Value.int 50)]

/-- The spec's "strictly increasing integer sequence": `n` consecutive integers
starting at `m`. -/
def idList : Int → Nat → List Int
  | _, 0 => []
  | m, n + 1 => m :: idList (m + 1) n

/-- A signing primitive standing for an unusable (wrong-type) key object: the
call raises `TypeError`, not `InvalidSignature`. -/
def typeErrorPrim : List Nat → Except PrimError (List Nat) :=
  fun _ => Except.error (PrimError.otherError "TypeError: key does not support PSS")

/-- A signing primitive standing for a usable key producing the signature
bytes `[0, 1, 2]`. -/
def okPrim : List Nat → Except PrimError (List Nat) :=
  fun _ => Except.ok [0, 1, 2]

/- ===================== helper lemmas ===================== -/

/-- Net effect of `raise_if_bad_response` plus `raise_for_status`: the call
raises exactly for statuses 400–599. -/
theorem raise_if_bad_iff (s : Nat) :
    raise_if_bad_response s = true ↔ (400 ≤ s ∧ s < 600) := by
  simp [raise_if_bad_response, inRange200to299, raise_for_status_raises]
  omega

/-- Rewriting the classification branch to the 400–599 condition. -/
theorem classify_ite {γ : Type} (s : Nat) (A B : γ) :
    (if raise_if_bad_response s then A else B) =
      (if 400 ≤ s ∧ s < 600 then A else B) := by
  by_cases h : 400 ≤ s ∧ s < 600
  · rw [if_pos ((raise_if_bad_iff s).2 h), if_pos h]
  · rw [if_neg (fun hb => h ((raise_if_bad_iff s).1 hb)), if_neg h]

/-- One valid `rate_limit` call records an instant at least the threshold
after the previous one: if it slept, the second clock reading is at least
`tNow + threshold ≥ last + threshold`; if it did not, `tNow` itself was
already `threshold` past `last`. -/
theorem step_gap (last : Int) (s : ClockStep) (h : stepValid last s = true) :
    last + threshold_in_microseconds ≤ rate_limit_update s := by
  simp only [stepValid, Bool.and_eq_true, decide_eq_true_eq] at h
  obtain ⟨h1, h2⟩ := h
  by_cases hb : rate_limit_sleeps last s = true
  · rw [if_pos hb] at h2
    simp only [decide_eq_true_eq] at h2
    simp only [rate_limit_update]
    omega
  · rw [if_neg hb] at h2
    simp only [decide_eq_true_eq] at h2
    simp only [rate_limit_sleeps, decide_eq_true_eq] at hb
    simp only [rate_limit_update]
    omega

/-- Along any valid back-to-back chain, consecutive recorded instants are at
least the threshold apart. -/
theorem chain_gaps_aux (steps : List ClockStep) : ∀ init : Int,
    chainValid init steps = true →
    gapsAtLeast threshold_in_microseconds (recordedInstants init steps) = true := by
  induction steps with
  | nil => intro init _; rfl
  | cons s rest ih =>
    intro init h
    simp only [chainValid, Bool.and_eq_true] at h
    obtain ⟨hs, hc⟩ := h
    have hhead := step_gap init s hs
    have htail := ih (rate_limit_update s) hc
    simp only [recordedInstants, List.map_cons] at htail ⊢
    simp only [gapsAtLeast, Bool.and_eq_true, decide_eq_true_eq]
    exact ⟨hhead, htail⟩

/-- Ids of the messages emitted by any operation sequence: consecutive
integers starting at the current `message_id`. -/
theorem ws_message_ids_aux (ops : List WsOp) : ∀ st : WS,
    (runOps st ops).2.map OutMsg.id = idList st.message_id ops.length := by
  induction ops with
  | nil => intro st; rfl
  | cons op rest ih =>
    intro st
    cases op <;>
      simp [runOps, applyOp, subscribe_to_tickers, subscribe_to_specific_tickers,
        subscribe_to_orderbook, subscribe_to_trades, unsubscribe_from_channel,
        send_custom_message, idList, ih]

/-- Consecutive integer lists are strictly increasing. -/
theorem idList_chain (n : Nat) : ∀ m : Int,
    List.Chain' (fun a b => a < b) (idList m n) := by
  induction n with
  | zero => intro m; exact List.chain'_nil
  | succ k ih =>
    intro m
    cases k with
    | zero => simp [idList]
    | succ j =>
      simp only [idList]
      rw [List.chain'_cons]
      refine ⟨by omega, ?_⟩
      have := ih (m + 1)
      simpa [idList] using this

/-- Characters before a `'?'` survive `takeWhile` intact. -/
theorem takeWhile_until_qmark (q : List Char) : ∀ b : List Char,
    (∀ c ∈ b, c ≠ '?') →
    List.takeWhile (fun c => c ≠ '?') (b ++ '?' :: q) = b := by
  intro b
  induction b with
  | nil =>
    intro _
    simp [List.takeWhile_cons]
  | cons a t ih =>
    intro h
    have ha : a ≠ '?' := h a (List.mem_cons_self a t)
    have ht := ih (fun c hc => h c (List.mem_cons_of_mem a hc))
    rw [List.cons_append, List.takeWhile_cons, if_pos (decide_eq_true ha), ht]

/-- Folding `stripQuery` over an explicit path-plus-query concatenation. -/
theorem stripQuery_append_query (b q : List Char) (hb : ∀ c ∈ b, c ≠ '?') :
    stripQuery (String.mk (b ++ '?' :: q)) = String.mk b :=
  congrArg String.mk (takeWhile_until_qmark q b hb)

/-- A list with no `'?'` is untouched by `takeWhile`. -/
theorem takeWhile_all_no_qmark : ∀ b : List Char, (∀ c ∈ b, c ≠ '?') →
    List.takeWhile (fun c => c ≠ '?') b = b := by
  intro b
  induction b with
  | nil => intro _; rfl
  | cons a t ih =>
    intro h
    have ha : a ≠ '?' := h a (List.mem_cons_self a t)
    have ht := ih (fun c hc => h c (List.mem_cons_of_mem a hc))
    rw [List.takeWhile_cons, if_pos (decide_eq_true ha), ht]

/-- A path without a query string is returned whole. -/
theorem stripQuery_eq_self (path : String) (h : ∀ c ∈ path.data, c ≠ '?') :
    stripQuery path = path := by
  cases path with
  | mk d =>
    exact congrArg String.mk (takeWhile_all_no_qmark d h)

/-- The filter in `get_exposed_positions` computes exactly the claim's
subsequence. -/
theorem filter_eq_nonzeroExposureSubseq (l : List Position) :
    l.filter (fun position => position.market_exposure.getD 0 != 0) =
      nonzeroExposureSubseq l := by
  induction l with
  | nil => rfl
  | cons p t ih =>
    by_cases h : p.market_exposure.getD 0 = 0
    · simp [List.filter_cons, nonzeroExposureSubseq, h, ih]
    · simp [List.filter_cons, nonzeroExposureSubseq, h, ih]

/- ===================== claim theorems ===================== -/

/-- C1 (code bug): `create_order` performs no `yes_price`/`no_price`
mutual-exclusion check.  With both prices supplied — and likewise with neither —
it still builds the body and issues the POST to `/trade-api/v2/portfolio/orders`
(network I/O), instead of failing with a validation error beforehand as the
claim, the function's own docstring ("Exactly one of yes_price and no_price
must be provided"), and the sibling `amend_order`/`decrease_order` pattern
require.  The third conjunct evaluates `amend_order` at the same both-supplied
input to exhibit the check `create_order` lacks. -/
theorem create_order_skips_xor_validation :
    create_order "buy" "oid-1" 1 "yes" "TEST" "limit" Option.none Option.none
        (some 50) Option.none Option.none (some 50) =
      ClientCall.post "/trade-api/v2/portfolio/orders"
        [("action", Value.str "buy"), ("client_order_id", Value.str "oid-1"),
         ("count", Value.int 1), ("side", Value.str "yes"),
         ("ticker", Value.str "TEST"), ("type", Value.str "limit"),
         ("no_price", Value.int 50), ("yes_price", Value.int 50)] ∧
    create_order "buy" "oid-2" 1 "yes" "TEST" "limit" Option.none Option.none
        Option.none Option.none Option.none Option.none =
      ClientCall.post "/trade-api/v2/portfolio/orders"
        [("action", Value.str "buy"), ("client_order_id", Value.str "oid-2"),
         ("count", Value.int 1), ("side", Value.str "yes"),
         ("ticker", Value.str "TEST"), ("type", Value.str "limit")] ∧
    amend_order "ord-1" "buy" "oid-3" 1 "yes" "TEST" "oid-4" (some 50) (some 50) =
      ClientCall.validationError
        "Exactly one of yes_price or no_price must be provided." := by
  refine ⟨rfl, rfl, ?_⟩
  rw [amend_order, if_pos (Or.inr ⟨Option.some_ne_none 50, Option.some_ne_none 50⟩)]

/-- C2 counterexample: on a source of 2 items split across 2 cursor-linked
pages, `get_nba_game_markets` returns only the first page's single item,
while walking the cursors (the claimed `PaginatedResource` behaviour) yields
both — so the code does not return all N items. -/
theorem nba_markets_not_paginated_cex :
    get_nba_game_markets twoPageSource = [0] ∧
    paginatedResource twoPageSource 10 Option.none = [0, 1] ∧
    get_nba_game_markets twoPageSource ≠ paginatedResource twoPageSource 10 Option.none :=
  ⟨rfl, rfl, by decide⟩

/-- C2 (amended): the repository has no pagination helper; `get_nba_game_markets`
issues exactly one fetch, with no cursor, and returns that first page's
`markets` (empty when the key is absent).  In particular its result depends
only on the cursor-less first page: sources agreeing there are
indistinguishable, so pages behind cursors are never consulted. -/
theorem nba_markets_first_page_only :
    (∀ (α : Type) (fetch : Option String → MarketsResponse α),
      get_nba_game_markets fetch = (fetch Option.none).markets.getD []) ∧
    (∀ (α : Type) (fetch fetch' : Option String → MarketsResponse α),
      fetch Option.none = fetch' Option.none →
      get_nba_game_markets fetch = get_nba_game_markets fetch') := by
  constructor
  · intro α fetch
    rcases h : (fetch Option.none).markets with _ | ms <;>
      simp [get_nba_game_markets, h]
  · intro α fetch fetch' h
    simp [get_nba_game_markets, h]

/-- C2 witness: two sources sharing only their first page (they differ behind
the cursor) get identical results. -/
theorem nba_markets_first_page_only_witness :
    get_nba_game_markets twoPageSource = get_nba_game_markets firstPageTwin :=
  nba_markets_first_page_only.2 Nat twoPageSource firstPageTwin rfl

/-- C3 counterexample: a final 301 response (non-2xx) is *not* turned into an
error — `raise_if_bad_response` falls through to `raise_for_status`, which only
raises for 400–599, so the call returns the decoded body. -/
theorem non2xx_returns_ok_cex :
    (client301.get markets_url []).2 = Except.ok 0 ∧
    inRange200to299 resp301.status_code = false ∧
    resp301.status_code = 301 :=
  ⟨rfl, rfl, rfl⟩

/-- C3 (amended): every REST call (`get`, `post`, `delete`) sends exactly one
HTTP request (no retry), returns the decoded body for any final status outside
400–599 (which includes all of 2xx, but also 1xx/3xx), and fails with an error
carrying the status code and raw body exactly for statuses 400–599; in
particular a 429 on an order submission fails with status 429 and no retry. -/
theorem rest_status_classification :
    (∀ (β : Type) (c : Http β) (path : String) (params : Dict),
      (c.get path params).2 =
        (let r := c.transport "GET" (c.host ++ path)
            (request_headers c.key_id c.signFn c.now_ms "GET" path) params
         if 400 ≤ r.status_code ∧ r.status_code < 600 then
           Except.error { status_code := r.status_code, raw := r.raw }
         else Except.ok r.json) ∧
      sendCount (c.get path params).1 = 1) ∧
    (∀ (β : Type) (c : Http β) (path : String) (body : Dict),
      (c.post path body).2 =
        (let r := c.transport "POST" (c.host ++ path)
            (request_headers c.key_id c.signFn c.now_ms "POST" path) body
         if 400 ≤ r.status_code ∧ r.status_code < 600 then
           Except.error { status_code := r.status_code, raw := r.raw }
         else Except.ok r.json) ∧
      sendCount (c.post path body).1 = 1) ∧
    (∀ (β : Type) (c : Http β) (path : String) (params : Dict),
      (c.delete path params).2 =
        (let r := c.transport "DELETE" (c.host ++ path)
            (request_headers c.key_id c.signFn c.now_ms "DELETE" path) params
         if 400 ≤ r.status_code ∧ r.status_code < 600 then
           Except.error { status_code := r.status_code, raw := r.raw }
         else Except.ok r.json) ∧
      sendCount (c.delete path params).1 = 1) ∧
    ((client429.post (portfolio_url ++ "/orders") order429Body).2 =
        Except.error { status_code := 429, raw := "too many requests" } ∧
      sendCount (client429.post (portfolio_url ++ "/orders") order429Body).1 = 1) := by
  refine ⟨fun β c path params => ⟨?_, rfl⟩, fun β c path body => ⟨?_, rfl⟩,
    fun β c path params => ⟨?_, rfl⟩, rfl, rfl⟩
  · simp only [Http.get]
    exact classify_ite _ _ _
  · simp only [Http.post]
    exact classify_ite _ _ _
  · simp only [Http.delete]
    exact classify_ite _ _ _

/-- C4: sequential rate limiting.  First conjunct: along any back-to-back call
chain whose clock readings respect monotonicity and the sleep lower bound
(`chainValid`), every two consecutive recorded `last_api_call` instants —
starting from the construction-time reading — are at least 100 ms
(100000 μs) apart; the new instant is the value `rate_limit` records before
returning.  Second conjunct: every REST call acquires the rate limiter before
its single HTTP send. -/
theorem rate_limit_sequential_gap :
    (∀ (init : Int) (steps : List ClockStep),
      chainValid init steps = true →
      gapsAtLeast threshold_in_microseconds (recordedInstants init steps) = true) ∧
    (∀ (β : Type) (c : Http β) (path : String) (params : Dict),
      (c.get path params).1 =
        [Ev.rateLimitAcquire,
         Ev.send "GET" (c.host ++ path)
           (request_headers c.key_id c.signFn c.now_ms "GET" path) params]) :=
  ⟨fun init steps h => chain_gaps_aux steps init h, fun _ _ _ _ => rfl⟩

/-- C4 witness: a concrete valid two-call chain — the first call sleeps, the
second does not — whose recorded instants 0, 100005, 200011 are each ≥ 100 ms
apart. -/
theorem rate_limit_sequential_gap_witness :
    chainValid 0 [{ tNow := 5, tAfter := 100005 },
      { tNow := 200010, tAfter := 200011 }] = true ∧
    gapsAtLeast threshold_in_microseconds
      (recordedInstants 0 [{ tNow := 5, tAfter := 100005 },
        { tNow := 200010, tAfter := 200011 }]) = true :=
  ⟨by decide, rate_limit_sequential_gap.1 0
    [{ tNow := 5, tAfter := 100005 }, { tNow := 200010, tAfter := 200011 }]
    (by decide)⟩

/-- C5 counterexample: an interleaving of two concurrent `rate_limit` calls in
which both threads read the stale `last_api_call` and pass the comparison
before either writes; the two calls complete 1 μs apart — far under the
100 ms threshold — refuting the claim that no interleaving can produce two
calls closer than the threshold. -/
theorem rate_limit_race_cex :
    (Race.run Race.init Race.racySchedule).map Race.Sys.sends =
      some [100001, 100002] ∧
    (100002 : Int) - 100001 < threshold_in_microseconds :=
  ⟨rfl, by decide⟩

/-- C5 (amended): `rate_limit` has no lock; its read-compare-sleep-update
sequence is not a critical section, and there exists an interleaving of two
concurrent acquisitions, both running the full protocol to completion, whose
two calls are closer than the 100 ms threshold.  (Sequentially the invariant
does hold — that is C4.) -/
theorem rate_limit_unsynchronized :
    ∃ (acts : List Race.Act) (final : Race.Sys) (t1 t2 : Int),
      Race.run Race.init acts = some final ∧
      final.tA.phase = Race.Phase.done ∧
      final.tB.phase = Race.Phase.done ∧
      final.sends = [t1, t2] ∧
      t2 - t1 < threshold_in_microseconds :=
  ⟨Race.racySchedule,
   { time := 100002, last_api_call := 100002,
     tA := { phase := Race.Phase.done, wake := 0 },
     tB := { phase := Race.Phase.done, wake := 0 },
     sends := [100001, 100002] },
   100001, 100002, rfl, rfl, rfl, rfl, by decide⟩

/-- C6: on one session every outbound subscribe/unsubscribe/custom message
carries the next id of the strictly increasing sequence 1, 2, 3, … — never
reused, even after an unsubscribe.  In particular three subscribes on a fresh
session get ids 1, 2, 3, and a subscribe–unsubscribe–resubscribe sequence gets
1, 2, 3 (no id is reused after the unsubscribe). -/
theorem ws_message_ids :
    (∀ ops : List WsOp,
      (runOps WS.fresh ops).2.map OutMsg.id = idList 1 ops.length) ∧
    (∀ ops : List WsOp,
      List.Chain' (fun a b => a < b) ((runOps WS.fresh ops).2.map OutMsg.id)) ∧
    ((runOps WS.fresh [WsOp.subTickers, WsOp.subOrderbook "T1",
        WsOp.subTrades Option.none]).2.map OutMsg.id = [1, 2, 3]) ∧
    ((runOps WS.fresh [WsOp.subTickers, WsOp.unsub "ticker",
        WsOp.subTickers]).2.map OutMsg.id = [1, 2, 3]) := by
  refine ⟨fun ops => ws_message_ids_aux ops WS.fresh, ?_, rfl, rfl⟩
  intro ops
  rw [ws_message_ids_aux ops WS.fresh]
  exact idList_chain ops.length 1

/-- C7: authentication headers.  For a path carrying a query string (and none
of whose pre-`'?'` characters is itself `'?'`) the headers carry the key id,
the decimal millisecond timestamp, and the signature over timestamp ++ verb ++
path-without-query; a query-free path is signed whole.  The remaining
conjuncts show every REST call uses these headers with its uppercase verb
(`"GET"`/`"POST"`/`"DELETE"`), and the streaming handshake signs with `"GET"`
and the streaming path. -/
theorem auth_headers_canonical :
    (∀ (key : String) (sgn : String → String) (now_ms : Int) (method : String)
        (b q : List Char), (∀ c ∈ b, c ≠ '?') →
      request_headers key sgn now_ms method (String.mk (b ++ '?' :: q)) =
        { contentType := "application/json", accessKey := key,
          accessSignature := sgn (toString now_ms ++ method ++ String.mk b),
          accessTimestamp := toString now_ms }) ∧
    (∀ (key : String) (sgn : String → String) (now_ms : Int) (method path : String),
        (∀ c ∈ path.data, c ≠ '?') →
      request_headers key sgn now_ms method path =
        { contentType := "application/json", accessKey := key,
          accessSignature := sgn (toString now_ms ++ method ++ path),
          accessTimestamp := toString now_ms }) ∧
    (∀ (β : Type) (c : Http β) (path : String) (params : Dict),
      (c.get path params).1 =
        [Ev.rateLimitAcquire,
         Ev.send "GET" (c.host ++ path)
           (request_headers c.key_id c.signFn c.now_ms "GET" path) params]) ∧
    (∀ (β : Type) (c : Http β) (path : String) (body : Dict),
      (c.post path body).1 =
        [Ev.rateLimitAcquire,
         Ev.send "POST" (c.host ++ path)
           (request_headers c.key_id c.signFn c.now_ms "POST" path) body]) ∧
    (∀ (β : Type) (c : Http β) (path : String) (params : Dict),
      (c.delete path params).1 =
        [Ev.rateLimitAcquire,
         Ev.send "DELETE" (c.host ++ path)
           (request_headers c.key_id c.signFn c.now_ms "DELETE" path) params]) ∧
    (∀ (key : String) (sgn : String → String) (now_ms : Int),
      ws_connect_headers key sgn now_ms =
        request_headers key sgn now_ms "GET" url_suffix) := by
  refine ⟨?_, ?_, fun β c path params => rfl, fun β c path body => rfl,
    fun β c path params => rfl, fun key sgn now_ms => rfl⟩
  · intro key sgn now_ms method b q hb
    simp only [request_headers]
    rw [stripQuery_append_query b q hb]
  · intro key sgn now_ms method path h
    simp only [request_headers]
    rw [stripQuery_eq_self path h]

/-- C7 witness: concrete headers for a GET on `/trade-api/v2/markets?limit=100`
— the signature covers the path with the query string removed. -/
theorem auth_headers_canonical_witness :
    request_headers "kid" (fun m => m) 1700000000000 "GET"
        (String.mk ("/trade-api/v2/markets".data ++ '?' :: "limit=100".data)) =
      { contentType := "application/json", accessKey := "kid",
        accessSignature := (fun m => m)
          (toString (1700000000000 : Int) ++ "GET" ++
            String.mk "/trade-api/v2/markets".data),
        accessTimestamp := toString (1700000000000 : Int) } :=
  auth_headers_canonical.1 "kid" (fun m => m) 1700000000000 "GET"
    "/trade-api/v2/markets".data "limit=100".data (by decide)

/-- C8: for every subset of optional filter arguments, the params dict of
`get_markets` and of `get_positions` contains exactly the supplied entries, in
declaration order, with no `None`/empty sentinel entries; and each method sends
precisely that dict on its single GET. -/
theorem filters_exactly_supplied :
    (∀ (event_ticker series_ticker : Option String)
        (max_close_ts min_close_ts limit : Option Int)
        (cursor status : Option String),
      get_markets_params event_ticker series_ticker max_close_ts min_close_ts
          limit cursor status =
        suppliedMarketsParams event_ticker series_ticker max_close_ts min_close_ts
          limit cursor status ∧
      (get_markets_params event_ticker series_ticker max_close_ts min_close_ts
          limit cursor status).all (fun kv => isPresent kv.2) = true) ∧
    (∀ (cursor : Option String) (limit : Option Int)
        (count_filter settlement_status ticker event_ticker : Option String),
      get_positions_params cursor limit count_filter settlement_status ticker
          event_ticker =
        suppliedPositionsParams cursor limit count_filter settlement_status ticker
          event_ticker ∧
      (get_positions_params cursor limit count_filter settlement_status ticker
          event_ticker).all (fun kv => isPresent kv.2) = true) ∧
    (∀ (β : Type) (c : Http β) (event_ticker series_ticker : Option String)
        (max_close_ts min_close_ts limit : Option Int)
        (cursor status : Option String),
      (get_markets c event_ticker series_ticker max_close_ts min_close_ts limit
          cursor status).1 =
        [Ev.rateLimitAcquire,
         Ev.send "GET" (c.host ++ markets_url)
           (request_headers c.key_id c.signFn c.now_ms "GET" markets_url)
           (get_markets_params event_ticker series_ticker max_close_ts min_close_ts
             limit cursor status)]) ∧
    (∀ (β : Type) (c : Http β) (cursor : Option String) (limit : Option Int)
        (count_filter settlement_status ticker event_ticker : Option String),
      (get_positions c cursor limit count_filter settlement_status ticker
          event_ticker).1 =
        [Ev.rateLimitAcquire,
         Ev.send "GET" (c.host ++ (portfolio_url ++ "/positions"))
           (request_headers c.key_id c.signFn c.now_ms "GET"
             (portfolio_url ++ "/positions"))
           (get_positions_params cursor limit count_filter settlement_status ticker
             event_ticker)]) := by
  refine ⟨?_, ?_, fun β c a b d e f g h => rfl, fun β c a b d e f g => rfl⟩
  · intro a b d e f g h
    rcases a with _ | a <;> rcases b with _ | b <;> rcases d with _ | d <;>
      rcases e with _ | e <;> rcases f with _ | f <;> rcases g with _ | g <;>
      rcases h with _ | h <;> exact ⟨rfl, rfl⟩
  · intro a b d e f g
    rcases a with _ | a <;> rcases b with _ | b <;> rcases d with _ | d <;>
      rcases e with _ | e <;> rcases f with _ | f <;> rcases g with _ | g <;>
      exact ⟨rfl, rfl⟩

/-- C9 counterexample: a wrong-type/corrupt key makes the primitive raise a
`TypeError`-class exception, which the single `except InvalidSignature` clause
does not catch: the failure propagates *unclassified*, not as the classified
`ValueError("RSA sign PSS failed")` the claim requires for every unusable
key. -/
theorem sign_pss_text_unclassified_cex :
    sign_pss_text typeErrorPrim "1700000000000GET/trade-api/v2/markets" =
      Except.error (PyError.uncaught "TypeError: key does not support PSS") ∧
    PyError.uncaught "TypeError: key does not support PSS" ≠
      PyError.valueError "RSA sign PSS failed" :=
  ⟨rfl, by decide⟩

/-- C9 (amended): `sign_pss_text` calls the primitive once; on success it
returns the base64-encoded signature; an `InvalidSignature` from the primitive
is reclassified as the fatal `ValueError("RSA sign PSS failed")`; any other
primitive failure propagates unclassified.  In every failure case the call
fails — no retry. -/
theorem sign_pss_text_contract :
    ∀ (primSign : List Nat → Except PrimError (List Nat)) (text : String),
      (∀ signature, primSign (utf8Bytes text) = Except.ok signature →
        sign_pss_text primSign text = Except.ok (b64encode signature)) ∧
      (primSign (utf8Bytes text) = Except.error PrimError.invalidSignature →
        sign_pss_text primSign text =
          Except.error (PyError.valueError "RSA sign PSS failed")) ∧
      (∀ msg, primSign (utf8Bytes text) = Except.error (PrimError.otherError msg) →
        sign_pss_text primSign text = Except.error (PyError.uncaught msg)) := by
  intro primSign text
  refine ⟨fun signature h => ?_, fun h => ?_, fun msg h => ?_⟩ <;>
    simp [sign_pss_text, h]

/-- C9 witness: a usable key signing to bytes `[0, 1, 2]` yields the base64
string `"AAEC"`. -/
theorem sign_pss_text_contract_witness :
    sign_pss_text okPrim "t" = Except.ok (b64encode [0, 1, 2]) ∧
    b64encode [0, 1, 2] = "AAEC" :=
  ⟨(sign_pss_text_contract okPrim "t").1 [0, 1, 2] rfl, by decide⟩

/-- C10: for every `get_positions` response body, `get_exposed_positions`
returns exactly the subsequence of `market_positions` entries with nonzero
`market_exposure` (absent counting as zero), in original order, and the
response's cursor defaulted to the empty string when absent. -/
theorem exposed_positions_spec :
    ∀ portfolio_data : PositionsResponse,
      (get_exposed_positions portfolio_data).market_positions =
        nonzeroExposureSubseq (portfolio_data.market_positions.getD []) ∧
      List.Sublist (get_exposed_positions portfolio_data).market_positions
        (portfolio_data.market_positions.getD []) ∧
      (get_exposed_positions portfolio_data).cursor =
        portfolio_data.cursor.getD "" := by
  intro portfolio_data
  exact ⟨filter_eq_nonzeroExposureSubseq _, List.filter_sublist _, rfl⟩

end Forecasting
